import Mathlib

/-!
Shallow embedding of the conversation-orchestration core of the
maveric-radp-demo front end: the Dashboard host component
(session identity, append-only message timeline, guided-tour visibility,
send/error lifecycle with a global loading flag), the ChatWidget variant
(mode selection, welcome message), the GuidedTour stage machine, the
InputBox composer gate, and the Sidebar shortcuts.

Stateful React components are embedded as explicit state records; event
handlers become pure state-transition functions.  The wall clock
(`new Date().toISOString()`) and UUID generation (`uuidv4()`) are passed
in as explicit string parameters.  The network boundary is embedded as an
outcome value (success payload or failure) supplied to the handler, since
the client treats the transport as an opaque request/response call.
-/

/-- A timeline entry, from the message objects built in Dashboard.js and
ChatWidget.js: `role`, `content`, `timestamp` always present; `sources`,
`visualization`, `suggestions` pass through from a response when present;
`isError` is set only on the error message appended in the catch block. -/
structure Message where
  role : String
  content : String
  timestamp : String
  sources : Option (List String) := none
  visualization : Option String := none
  suggestions : Option (List String) := none
  isError : Bool := false
deriving Repr, DecidableEq

/-- Successful `POST /api/v1/chat` response payload
(`response.data` fields read by the client). -/
structure ChatResponse where
  response : String
  timestamp : String
  sources : Option (List String) := none
  visualization : Option String := none
  suggestions : Option (List String) := none
deriving Repr, DecidableEq

/-- Result of the awaited `axios.post` inside `handleSendMessage`:
either a successful payload, or any failure (transport error, non-success
status, malformed payload — all reach the single catch block); `now` is the
local clock reading at failure time. -/
inductive SendOutcome where
  | success (resp : ChatResponse)
  | failure (now : String)
deriving Repr, DecidableEq

/-- The request body posted to `/api/v1/chat` (shared shape between
Dashboard.js and ChatWidget.js). -/
structure ChatRequest where
  message : String
  session_id : Option String
  mode : String
  module : Option String
deriving Repr, DecidableEq

/-- Browser `localStorage`, embedded as an association list where `setItem`
prepends and `getItem` reads the most recent binding for a key. -/
structure LocalStorage where
  entries : List (String × String)
deriving Repr, DecidableEq

def LocalStorage.setItem (ls : LocalStorage) (k v : String) : LocalStorage :=
  ⟨(k, v) :: ls.entries⟩

def LocalStorage.getItem (ls : LocalStorage) (k : String) : Option String :=
  (ls.entries.find? (fun e => e.1 = k)).map (fun e => e.2)

/-- State of the Dashboard component (Dashboard.js `useState` hooks). -/
structure DashboardState where
  messages : List Message
  isLoading : Bool
  sessionId : Option String
  selectedModule : Option String
  sidebarCollapsed : Bool
  showGuidedTour : Bool
deriving Repr, DecidableEq

/-- Initial Dashboard state (the `useState` initialisers). -/
def initialDashboardState : DashboardState :=
  { messages := [], isLoading := false, sessionId := none,
    selectedModule := none, sidebarCollapsed := false, showGuidedTour := true }

/-- JavaScript whitespace recognised by `String.prototype.trim`
(the ASCII part of the WhiteSpace and LineTerminator productions). -/
def isJsWhitespace (c : Char) : Bool :=
  c = ' ' || c = '\t' || c = '\n' || c = '\r' || c = '\x0b' || c = '\x0c'

/-- Drop leading JavaScript whitespace from a character list. -/
def dropJsWhitespace : List Char → List Char
  | [] => []
  | c :: cs => if isJsWhitespace c then dropJsWhitespace cs else c :: cs

/-- JavaScript `String.prototype.trim`: strip whitespace from both ends. -/
def jsTrim (s : String) : String :=
  ⟨(dropJsWhitespace (dropJsWhitespace s.data.reverse).reverse)⟩

/-- The user message object built at the top of `handleSendMessage`. -/
def mkUserMessage (text now : String) : Message :=
  { role := "user", content := text, timestamp := now }

/-- The assistant message built from a successful response
(`botMessage` in Dashboard.js). -/
def mkBotMessage (r : ChatResponse) : Message :=
  { role := "assistant", content := r.response, timestamp := r.timestamp,
    sources := r.sources, visualization := r.visualization,
    suggestions := r.suggestions }

/-- The fixed remediation template of the Dashboard catch block, with the
failure-time clock reading interpolated at the end
(the template literal at Dashboard.js line 125). -/
def dashboardErrorContent (now : String) : String :=
  "**Error Processing Request**\n\nWe encountered an issue processing your request. This could be due to:\n\n- Temporary connectivity issues\n- Server maintenance\n- Invalid request format\n\n**What to try:**\n1. Check your internet connection\n2. Retry your request\n3. Try rephrasing your question\n4. Start a new conversation (âŒ˜K / Ctrl+K)\n\nIf the issue persists, please contact technical support.\n\n*Timestamp: "
    ++ now ++ "*"

/-- The `errorMessage` object appended by the Dashboard catch block. -/
def mkDashboardErrorMessage (now : String) : Message :=
  { role := "assistant", content := dashboardErrorContent now,
    timestamp := now, isError := true }

/-- The synchronous part of Dashboard `handleSendMessage` that runs before
the awaited network call: hide the tour, append the optimistic user
message, acquire the loading flag. -/
def sendStart (st : DashboardState) (text now : String) : DashboardState :=
  { st with showGuidedTour := false,
            messages := st.messages ++ [mkUserMessage text now],
            isLoading := true }

/-- The terminal message appended after the network call resolves:
the bot message on success, the error message in the catch block. -/
def terminalMessage (o : SendOutcome) : Message :=
  match o with
  | .success r => mkBotMessage r
  | .failure now => mkDashboardErrorMessage now

/-- The part of Dashboard `handleSendMessage` that runs after the awaited
network call: append exactly one terminal message (try/catch), then release
the loading flag (finally). -/
def sendFinish (st : DashboardState) (o : SendOutcome) : DashboardState :=
  { st with messages := st.messages ++ [terminalMessage o],
            isLoading := false }

/-- Dashboard `handleSendMessage` run to completion: the early return on
blank input, then the pre-network phase followed by the post-network phase
for the given outcome. -/
def handleSendMessage (st : DashboardState) (text now : String)
    (o : SendOutcome) : DashboardState :=
  if jsTrim text = "" then st else sendFinish (sendStart st text now) o

/-- The request body built inside Dashboard `handleSendMessage`
(mode is the hard-coded string, module is read from state at send time). -/
def dashboardRequestBody (st : DashboardState) (text : String) : ChatRequest :=
  { message := text, session_id := st.sessionId,
    mode := "general_qa", module := st.selectedModule }

/-- One completed send: the submitted text, the clock reading at submit
time, and the outcome of the network call. -/
structure SendEvent where
  text : String
  now : String
  outcome : SendOutcome
deriving Repr, DecidableEq

/-- Run a sequence of completed sends, each finishing before the next. -/
def runSends (st : DashboardState) : List SendEvent → DashboardState
  | [] => st
  | e :: rest => runSends (handleSendMessage st e.text e.now e.outcome) rest

/-- The pair of timeline entries one completed send contributes. -/
def sendPair (e : SendEvent) : List Message :=
  [mkUserMessage e.text e.now, terminalMessage e.outcome]

/-- A mode descriptor from `GET /api/v1/chat/modes`. -/
structure ModeInfo where
  id : String
  label : String
  description : Option String := none
deriving Repr, DecidableEq

/-- State of the ChatWidget component (ChatWidget.js `useState` hooks). -/
structure ChatState where
  messages : List Message
  isLoading : Bool
  sessionId : Option String
  mode : String
  selectedModule : Option String
  availableModes : List ModeInfo
  showWelcome : Bool
deriving Repr, DecidableEq

/-- Initial ChatWidget state (the `useState` initialisers). -/
def initialChatState : ChatState :=
  { messages := [], isLoading := false, sessionId := none,
    mode := "full_overview", selectedModule := none,
    availableModes := [], showWelcome := true }

/-- The welcome body of ChatWidget `addWelcomeMessage`. -/
def welcomeContent : String :=
  "Welcome to the Maveric RADP Documentation Assistant.\n\n**Available Interaction Modes:**\n- Full Overview - Comprehensive workflow guidance from start to finish\n- Module Deep-Dive - Detailed technical information on specific components\n- General Q&A - Direct answers to specific questions\n\n**Core Platform Capabilities:**\n- Digital Twin training and RF prediction\n- UE track generation and simulation\n- Network orchestration and optimization\n- xApp/rApp algorithm development\n\nSelect a mode above or ask a question to begin."

/-- The `welcomeMsg` object of ChatWidget `addWelcomeMessage`. -/
def welcomeMessage (now : String) : Message :=
  { role := "assistant", content := welcomeContent, timestamp := now }

/-- ChatWidget `addWelcomeMessage`: replaces the message list with exactly
the welcome message (`setMessages([welcomeMsg])`). -/
def addWelcomeMessage (st : ChatState) (now : String) : ChatState :=
  { st with messages := [welcomeMessage now] }

/-- The fixed error body of the ChatWidget catch block. -/
def chatErrorContent : String :=
  "An error occurred processing your request. Please try again or contact support if the issue persists."

/-- The `errorMessage` object appended by the ChatWidget catch block. -/
def mkChatErrorMessage (now : String) : Message :=
  { role := "assistant", content := chatErrorContent,
    timestamp := now, isError := true }

/-- The terminal message of a ChatWidget send. -/
def chatTerminalMessage (o : SendOutcome) : Message :=
  match o with
  | .success r => mkBotMessage r
  | .failure now => mkChatErrorMessage now

/-- The request body built inside ChatWidget `handleSendMessage`
(mode and module are read from state at send time). -/
def chatRequestBody (st : ChatState) (text : String) : ChatRequest :=
  { message := text, session_id := st.sessionId,
    mode := st.mode, module := st.selectedModule }

/-- ChatWidget `handleSendMessage` run to completion: blank-input early
return; optimistic user append, welcome hidden, loading acquired; then one
terminal append and loading release (try/catch/finally). -/
def chatHandleSendMessage (st : ChatState) (text now : String)
    (o : SendOutcome) : ChatState :=
  if jsTrim text = "" then st
  else
    { st with showWelcome := false,
              messages := st.messages ++ [mkUserMessage text now,
                chatTerminalMessage o],
              isLoading := false }

/-- JavaScript `String.prototype.replace` with a plain string pattern:
replaces only the first occurrence.  `handleModeChange` uses
`newMode.replace(UNDERSCORE, SPACE)`. -/
def jsReplaceFirstUnderscore : List Char → List Char
  | [] => []
  | c :: cs => if c = '_' then ' ' :: cs else c :: jsReplaceFirstUnderscore cs

def jsReplaceUnderscore (s : String) : String :=
  ⟨jsReplaceFirstUnderscore s.data⟩

/-- The system annotation object appended by ChatWidget `handleModeChange`. -/
def modeChangeMessage (newMode now : String) : Message :=
  { role := "system",
    content := "Mode changed to: " ++ jsReplaceUnderscore newMode,
    timestamp := now }

/-- ChatWidget `handleModeChange`: store the new mode and append one
system-role annotation. -/
def handleModeChange (st : ChatState) (newMode now : String) : ChatState :=
  { st with mode := newMode,
            messages := st.messages ++ [modeChangeMessage newMode now] }

/-- ChatWidget `handleNewConversation`: fresh token (uuidv4 passed in as
`newSessionId`), persist it, `setMessages([])`, then `addWelcomeMessage()`
(so the list ends as exactly the welcome message), show welcome. -/
def chatHandleNewConversation (st : ChatState) (ls : LocalStorage)
    (newSessionId now : String) : ChatState × LocalStorage :=
  ({ st with sessionId := some newSessionId,
             messages := [welcomeMessage now],
             showWelcome := true },
   ls.setItem "docbot_session_id" newSessionId)

/-- Dashboard `handleNewConversation`: fresh token (uuidv4 passed in as
`newSessionId`), persist it under the fixed key, clear the message list,
show the guided tour again. -/
def handleNewConversation (st : DashboardState) (ls : LocalStorage)
    (newSessionId : String) : DashboardState × LocalStorage :=
  ({ st with sessionId := some newSessionId,
             messages := [],
             showGuidedTour := true },
   ls.setItem "docbot_session_id" newSessionId)

/-- A stage descriptor of the guided-tour script (GuidedTour.js `stages`). -/
structure Stage where
  name : String
  title : String
  content : String
  deepDivePrompt : String
  continuePrompt : String
deriving Repr, DecidableEq

/-- The fixed five-stage tour script of GuidedTour.js. -/
def stages : List Stage := [
  { name := "Overview",
    title := "What is Maveric RADP?",
    content := "Maveric RADP is a comprehensive platform for simulating and optimizing Radio Access Networks (RAN). It helps network engineers and researchers understand network behavior, predict performance, and optimize configurations without expensive physical testing.\n\n**The Platform Workflow**\n\nMaveric RADP works through four connected stages, each building on the previous one. Think of it as a pipeline that transforms network configurations into actionable insights.\n\n**What You\x27ll Learn in This Tour**\n\nBy the end of this guided tour, you\x27ll understand:\n- How the platform processes network simulations from start to finish\n- The role each component plays in the workflow\n- How to leverage the platform for your specific use cases\n\nLet\x27s walk through each stage together.",
    deepDivePrompt := "Explain the key benefits and use cases of Maveric RADP in detail",
    continuePrompt := "Continue to Setup" },
  { name := "Setup",
    title := "Stage 1: Simulation Configuration",
    content := "Every simulation starts with defining what you want to test. This is where you configure your network environment, set parameters, and define the scenario you want to analyze.\n\n**What Happens in Setup**\n\nYou define the network topology - the physical layout of cells, sectors, and coverage areas. You also set simulation parameters like frequency bands, power levels, and the characteristics of user equipment (UEs) in the network.\n\n**Think of It Like This**\n\nSetup is like creating a blueprint. You\x27re telling the platform: \"Here\x27s my network layout, here are my constraints, and here\x27s what I want to simulate.\" The platform takes these inputs and prepares them for processing.\n\n**Key Configuration Areas**\n- Network topology and cell layouts\n- Radio frequency parameters\n- User equipment distribution and behavior\n- Simulation duration and resolution\n\nOnce your configuration is complete, the platform moves to the intelligent prediction phase.",
    deepDivePrompt := "Show me detailed examples of network topology configuration and simulation parameters",
    continuePrompt := "Continue to Digital Twin" },
  { name := "Digital Twin",
    title := "Stage 2: Digital Twin Intelligence",
    content := "This is where machine learning enters the picture. The Digital Twin creates an intelligent model that learns from data to predict network behavior rapidly and accurately.\n\n**Why Digital Twin Matters**\n\nTraditional RF simulations can take hours or days to run. The Digital Twin learns patterns from historical data and can predict outcomes in seconds. It\x27s like having an expert network engineer who\x27s seen thousands of scenarios and can instantly tell you what will happen.\n\n**How It Works**\n\nThe platform trains machine learning models on network data, learning the complex relationships between configuration parameters and performance outcomes. Once trained, this Digital Twin can make predictions almost instantly.\n\n**What Gets Predicted**\n- Signal strength and quality across the coverage area\n- Interference patterns between cells\n- Network capacity and throughput\n- User experience metrics\n\nWith the Digital Twin trained, we can now predict RF performance for any scenario.",
    deepDivePrompt := "Explain how the Digital Twin training process works and what algorithms are used",
    continuePrompt := "Continue to RF Prediction" },
  { name := "RF Prediction",
    title := "Stage 3: RF Performance Analysis",
    content := "Now the trained Digital Twin model is put to work. The RF Prediction stage takes your configuration and generates detailed predictions about radio frequency performance across your network.\n\n**What Gets Analyzed**\n\nThe platform predicts key performance indicators like signal strength (RSRP), signal quality (RSRQ), and signal-to-noise ratios (SINR) for every point in your coverage area. It identifies potential issues like coverage gaps, interference hotspots, and capacity constraints.\n\n**Understanding the Output**\n\nYou receive comprehensive performance metrics that show exactly how your network will behave. This includes coverage maps, interference analysis, and throughput predictions - all generated in a fraction of the time traditional simulations would take.\n\n**Real Value**\n\nInstead of \"configure, simulate, wait, analyze, repeat,\" you can test multiple scenarios quickly. Want to see how adding a new cell affects performance? Get the answer in seconds, not hours.\n\nFinally, the platform orchestrates all these components working together.",
    deepDivePrompt := "Show me examples of RF prediction outputs and how to interpret coverage maps",
    continuePrompt := "Continue to Orchestration" },
  { name := "Orchestration",
    title := "Stage 4: Workflow Orchestration",
    content := "The Orchestration layer is the conductor of the symphony. It manages the entire workflow, coordinates distributed processing, and ensures everything runs smoothly at scale.\n\n**Behind the Scenes**\n\nWhen you run complex simulations, the platform distributes work across multiple processing nodes, manages job queues, collects results, and handles any failures gracefully. You don\x27t see this complexity - you just get fast, reliable results.\n\n**Why This Matters**\n\nOrchestration enables the platform to handle:\n- Large-scale simulations across extensive networks\n- Multiple concurrent jobs from different users\n- Automatic recovery from processing failures\n- Efficient resource utilization\n\n**The Complete Picture**\n\nNow you understand the full workflow: Configure your scenario (Setup), train intelligent models (Digital Twin), generate predictions (RF Analysis), and scale it all reliably (Orchestration).\n\n**Ready to Explore?**\n\nYou now have the foundation. From here, you can dive deep into any component, ask specific questions, or explore use cases relevant to your work.",
    deepDivePrompt := "Explain the orchestration architecture and how distributed processing works",
    continuePrompt := "Complete Tour" }
]

/-- Component-local state of GuidedTour (its two `useState` hooks). -/
structure TourLocalState where
  currentStage : Nat
  tourStarted : Bool
deriving Repr, DecidableEq

/-- GuidedTour initial local state. -/
def initialTourState : TourLocalState :=
  { currentStage := 0, tourStarted := false }

/-- GuidedTour `handleStartTour`. -/
def handleStartTour (s : TourLocalState) : TourLocalState :=
  { s with tourStarted := true }

/-- GuidedTour `handleContinue`: advance while not on the last stage,
otherwise invoke the `onExitTour` callback (reported as the Bool). -/
def handleContinue (s : TourLocalState) : TourLocalState × Bool :=
  if s.currentStage < stages.length - 1 then
    ({ s with currentStage := s.currentStage + 1 }, false)
  else
    (s, true)

/-- Apply `handleContinue` `n` times, counting exit-callback invocations. -/
def applyContinues : Nat → TourLocalState → TourLocalState × Nat
  | 0, s => (s, 0)
  | n + 1, s =>
    let (s2, exited) := handleContinue s
    let (s3, k) := applyContinues n s2
    (s3, (if exited then 1 else 0) + k)

/-- GuidedTour `handleStageClick`: accept a click on stage `index` exactly
when it is at or before the current stage or exactly one ahead. -/
def handleStageClick (s : TourLocalState) (index : Nat) : TourLocalState :=
  if index ≤ s.currentStage ∨ index = s.currentStage + 1 then
    { s with currentStage := index }
  else s

/-- The two views the Dashboard host can render in its messages container. -/
inductive ActiveView where
  | tour
  | timeline
deriving Repr, DecidableEq

/-- The Dashboard render conditional
`showGuidedTour && messages.length === 0 ? <GuidedTour/> : <messages/>`. -/
def renderView (st : DashboardState) : ActiveView :=
  if st.showGuidedTour ∧ st.messages.length = 0 then .tour else .timeline

/-- A message of the `GET /api/v1/chat/history` response body. -/
structure HistoryMessage where
  role : String
  content : String
  timestamp : String
  sources : Option (List String) := none
  visualization : Option String := none
deriving Repr, DecidableEq

/-- Result of the awaited history fetch: failure covers any thrown error
(caught and only logged); on success, `none` covers a null/absent
`response.data.messages`, `some msgs` a present message list. -/
inductive HistoryResult where
  | failure
  | success (msgs : Option (List HistoryMessage))
deriving Repr, DecidableEq

/-- The per-message projection of Dashboard `loadHistory`
(`formattedMessages`). -/
def formatHistoryMessage (m : HistoryMessage) : Message :=
  { role := m.role, content := m.content, timestamp := m.timestamp,
    sources := m.sources, visualization := m.visualization }

/-- Dashboard `loadHistory`: replace the message list and hide the tour
only when the fetch succeeded with a non-empty message list; otherwise —
failure, null data, or an empty list — leave the state untouched. -/
def loadHistory (st : DashboardState) (r : HistoryResult) : DashboardState :=
  match r with
  | .failure => st
  | .success none => st
  | .success (some msgs) =>
    if msgs.length > 0 then
      { st with messages := msgs.map formatHistoryMessage,
                showGuidedTour := false }
    else st

/-- The fixed prompt sent by the Sidebar API-reference shortcut. -/
def sidebarApiPrompt : String :=
  "Show me the complete API reference documentation for Maveric RADP"

/-- The fixed prompt sent by the Sidebar quick-start shortcut. -/
def sidebarQuickstartPrompt : String :=
  "Give me a quick start guide for getting started with Maveric RADP. What are the first steps?"

/-- A user action that can reach the Dashboard send path
(`handleSendMessage`): the composer submit (InputBox `handleSubmit`),
a suggestion click (`handleSuggestionClick`), the Sidebar resource
shortcuts, and the tour deep-dive button at a given stage. -/
inductive UserAction where
  | composerSubmit (composerText : String)
  | suggestionClick (suggestion : String)
  | sidebarApiClick
  | sidebarQuickstartClick
  | tourDeepDive (stageIndex : Nat)
deriving Repr, DecidableEq

/-- The text an action hands to `handleSendMessage` when it reaches it. -/
def dispatchText (a : UserAction) : String :=
  match a with
  | .composerSubmit t => t
  | .suggestionClick s => s
  | .sidebarApiClick => sidebarApiPrompt
  | .sidebarQuickstartClick => sidebarQuickstartPrompt
  | .tourDeepDive i =>
    match stages.get? i with
    | some s => s.deepDivePrompt
    | none => ""

/-- Whether the action reaches `handleSendMessage` at all.  Only the
composer gates on the `disabled` prop (wired to `isLoading`) inside
InputBox `handleSubmit`; suggestion clicks, Sidebar shortcuts, and tour
deep-dives call `handleSendMessage` directly with no loading check. -/
def reachesSendPath (st : DashboardState) (a : UserAction) : Bool :=
  match a with
  | .composerSubmit t => decide (¬ jsTrim t = "") && ! st.isLoading
  | _ => true

/-- Whether dispatching the action in the given state issues an outbound
request: it must reach `handleSendMessage` and survive its blank-input
early return. -/
def issuesRequest (st : DashboardState) (a : UserAction) : Bool :=
  reachesSendPath st a && decide (¬ jsTrim (dispatchText a) = "")


set_option maxRecDepth 8192

theorem stages_length : stages.length = 5 := rfl

theorem runSends_messages (st : DashboardState) (sends : List SendEvent)
    (h : ∀ e ∈ sends, ¬ jsTrim e.text = "") :
    (runSends st sends).messages = st.messages ++ (sends.map sendPair).flatten := by
  induction sends generalizing st with
  | nil => simp [runSends]
  | cons e rest ih =>
    have he : ¬ jsTrim e.text = "" := h e (by simp)
    have hrest : ∀ x ∈ rest, ¬ jsTrim x.text = "" := fun x hx => h x (by simp [hx])
    simp only [runSends, List.map_cons, List.flatten_cons]
    rw [ih _ hrest]
    simp [handleSendMessage, he, sendFinish, sendStart, sendPair]

theorem sendPair_roles (e : SendEvent) :
    (sendPair e).map Message.role = ["user", "assistant"] := by
  cases e with
  | mk t n o =>
    cases o <;>
      simp [sendPair, mkUserMessage, terminalMessage, mkBotMessage,
        mkDashboardErrorMessage]

theorem sendPairs_length (sends : List SendEvent) :
    ((sends.map sendPair).flatten).length = 2 * sends.length := by
  induction sends with
  | nil => simp
  | cons e rest ih =>
    simp only [List.map_cons, List.flatten_cons, List.length_append, ih,
      List.length_cons]
    simp [sendPair]
    ring

theorem sendPairs_roles (sends : List SendEvent) :
    ((sends.map sendPair).flatten).map Message.role
      = (sends.map (fun _ => ["user", "assistant"])).flatten := by
  induction sends with
  | nil => simp
  | cons e rest ih =>
    simp only [List.map_cons, List.flatten_cons, List.map_append, ih,
      sendPair_roles]

/-- C1: for every non-empty text through the send path, the user message is
appended by the pre-network phase, exactly one terminal assistant message is
appended by the post-network phase, and a sequence of completed sends
contributes exactly the concatenation of its user/terminal pairs after the
prior timeline, so N completed sends add exactly 2N role-bearing entries
whose roles alternate user/assistant in send order, with the prior timeline
preserved unchanged as a prefix. -/
theorem send_path_pairing (st : DashboardState) (sends : List SendEvent)
    (h : ∀ e ∈ sends, ¬ jsTrim e.text = "") :
    (∀ text now o, ¬ jsTrim text = "" →
        handleSendMessage st text now o = sendFinish (sendStart st text now) o
        ∧ (sendStart st text now).messages
            = st.messages ++ [mkUserMessage text now]
        ∧ (sendFinish (sendStart st text now) o).messages
            = st.messages ++ [mkUserMessage text now, terminalMessage o])
    ∧ (runSends st sends).messages
        = st.messages ++ (sends.map sendPair).flatten
    ∧ (runSends st sends).messages.length
        = st.messages.length + 2 * sends.length
    ∧ (runSends st sends).messages.take st.messages.length = st.messages
    ∧ ((sends.map sendPair).flatten).map Message.role
        = (sends.map (fun _ => ["user", "assistant"])).flatten := by
  have hmsg := runSends_messages st sends h
  refine ⟨?_, hmsg, ?_, ?_, sendPairs_roles sends⟩
  · intro text now o ht
    refine ⟨by simp [handleSendMessage, ht], by simp [sendStart], ?_⟩
    simp [sendFinish, sendStart]
  · rw [hmsg, List.length_append, sendPairs_length]
  · rw [hmsg, List.take_left]

/-- Closed witness for the send-path pairing theorem at a concrete
two-send run (one success, one failure). -/
theorem send_path_pairing_witness :
    (runSends initialDashboardState
        [⟨"Hello", "t1", .success ⟨"Hi", "t2", none, none, none⟩⟩,
         ⟨"Again", "t3", .failure "t4"⟩]).messages.length
      = initialDashboardState.messages.length
        + 2 * ([⟨"Hello", "t1", .success ⟨"Hi", "t2", none, none, none⟩⟩,
                ⟨"Again", "t3", .failure "t4"⟩] : List SendEvent).length :=
  (send_path_pairing initialDashboardState
    [⟨"Hello", "t1", .success ⟨"Hi", "t2", none, none, none⟩⟩,
     ⟨"Again", "t3", .failure "t4"⟩] (by decide)).2.2.1

/-- C2: whenever the timeline is non-empty the Dashboard renders the
timeline view, and it renders the tour exactly when the tour is chosen and
the timeline is empty. -/
theorem tour_timeline_mutual_exclusion (st : DashboardState) :
    (¬ st.messages = [] → renderView st = .timeline)
    ∧ (renderView st = .tour
        ↔ st.showGuidedTour = true ∧ st.messages = []) := by
  unfold renderView
  by_cases hg : st.showGuidedTour = true <;>
    by_cases hm : st.messages = [] <;>
      simp [hg, hm, List.length_eq_zero]

/-- Closed witness for mutual exclusion: a one-message timeline forces the
timeline view even though the tour flag is still set. -/
theorem tour_timeline_mutual_exclusion_witness :
    renderView { initialDashboardState with
        messages := [mkUserMessage "Hello" "t0"] } = .timeline :=
  (tour_timeline_mutual_exclusion _).1 (by decide)

/-- C3: the loading flag is acquired by the pre-network phase of every send
and is false again after the send completes on any outcome (success,
failure, or blank-input early return), so a completed send never leaves the
client stuck in the loading state. -/
theorem loading_flag_discipline (st : DashboardState) (text now : String)
    (o : SendOutcome) (h : st.isLoading = false) :
    (sendStart st text now).isLoading = true
    ∧ (handleSendMessage st text now o).isLoading = false := by
  refine ⟨rfl, ?_⟩
  unfold handleSendMessage
  split
  · exact h
  · rfl

/-- Closed witness for the loading-flag discipline at a concrete failing
send. -/
theorem loading_flag_discipline_witness :
    (handleSendMessage initialDashboardState "Hello" "t0"
        (.failure "t1")).isLoading = false :=
  (loading_flag_discipline initialDashboardState "Hello" "t0"
    (.failure "t1") rfl).2

/-- C4 counterexample: with a send in flight (the loading flag held right
after the pre-network phase), a suggestion click still reaches
`handleSendMessage` and issues a second outbound request — the loading
gate covers only the composer. -/
theorem ungated_send_while_loading :
    (sendStart initialDashboardState "Hello" "t0").isLoading = true
    ∧ issuesRequest (sendStart initialDashboardState "Hello" "t0")
        (.suggestionClick "Tell me more about the Digital Twin") = true := by
  decide

/-- C4 amended: while the loading flag is held, the composer submit path
issues no request (InputBox is disabled), but the suggestion-click,
Sidebar-shortcut, and tour deep-dive paths reach the send path with no
loading check, so each of them can issue a second outbound request while
one is in flight. -/
theorem composer_gate_only (st : DashboardState) (t s : String)
    (h : st.isLoading = true) :
    issuesRequest st (.composerSubmit t) = false
    ∧ issuesRequest st (.suggestionClick s)
        = decide (¬ jsTrim s = "")
    ∧ issuesRequest st .sidebarApiClick = true
    ∧ issuesRequest st .sidebarQuickstartClick = true
    ∧ issuesRequest st (.tourDeepDive 0) = true := by
  refine ⟨?_, ?_, ?_, ?_, ?_⟩
  · simp [issuesRequest, reachesSendPath, h]
  · simp [issuesRequest, reachesSendPath, dispatchText]
  · simp only [issuesRequest, reachesSendPath, dispatchText]
    decide
  · simp only [issuesRequest, reachesSendPath, dispatchText]
    decide
  · simp only [issuesRequest, reachesSendPath, dispatchText]
    decide

/-- Closed witness for the composer gate at a concrete loading state. -/
theorem composer_gate_only_witness :
    issuesRequest (sendStart initialDashboardState "Hello" "t0")
        (.composerSubmit "Hi") = false :=
  (composer_gate_only (sendStart initialDashboardState "Hello" "t0")
    "Hi" "sug" rfl).1

/-- C5: a stage click moves the tour to stage `j` exactly when `j` is at or
before the current stage or exactly one ahead; any other `j` leaves the
tour state unchanged, and a stage click never changes whether the tour has
started. -/
theorem stage_jump_policy (s : TourLocalState) (j : Nat) :
    ((handleStageClick s j).currentStage = j
        ↔ j ≤ s.currentStage ∨ j = s.currentStage + 1)
    ∧ (¬ (j ≤ s.currentStage ∨ j = s.currentStage + 1) →
        handleStageClick s j = s)
    ∧ (handleStageClick s j).tourStarted = s.tourStarted := by
  unfold handleStageClick
  by_cases hc : j ≤ s.currentStage ∨ j = s.currentStage + 1
  · simp [hc]
  · rw [if_neg hc]
    push_neg at hc
    obtain ⟨hc1, hc2⟩ := hc
    have hne : ¬ s.currentStage = j := by omega
    refine ⟨?_, fun _ => rfl, rfl⟩
    constructor
    · intro h2
      exact absurd h2 hne
    · intro h2
      rcases h2 with h2 | h2 <;> omega

/-- Closed witness for the jump policy: from stage 2, a click on stage 4 is
rejected as a no-op. -/
theorem stage_jump_policy_witness :
    handleStageClick ⟨2, true⟩ 4 = ⟨2, true⟩ :=
  (stage_jump_policy ⟨2, true⟩ 4).2.1 (by decide)

/-- C6: the tour script has five stages; continue advances stage `i` to
`i + 1` below the final stage and invokes the exit callback (exactly one
invocation) from the final stage; so after starting the tour, four
continues visit stages 0 through 4 with no exit, and a fifth continue
exits with the callback fired exactly once. -/
theorem continue_progression :
    stages.length = 5
    ∧ (∀ s : TourLocalState, s.currentStage < stages.length - 1 →
        handleContinue s
          = ({ s with currentStage := s.currentStage + 1 }, false))
    ∧ (∀ s : TourLocalState, s.currentStage = stages.length - 1 →
        handleContinue s = (s, true))
    ∧ (∀ k : Nat, k ≤ 4 →
        applyContinues k (handleStartTour initialTourState)
          = (⟨k, true⟩, 0))
    ∧ applyContinues 5 (handleStartTour initialTourState)
        = (⟨4, true⟩, 1) := by
  refine ⟨rfl, ?_, ?_, ?_, by decide⟩
  · intro s hs
    simp [handleContinue, hs]
  · intro s hs
    rw [stages_length] at hs
    simp [handleContinue, hs, stages_length]
  · intro k hk
    interval_cases k <;> decide

/-- Closed witness for the continue progression: one continue from the
started tour reaches stage 1 with no exit. -/
theorem continue_progression_witness :
    handleContinue ⟨0, true⟩ = (⟨1, true⟩, false) :=
  continue_progression.2.1 ⟨0, true⟩ (by decide)

/-- C7 counterexample: the Dashboard error body interpolates the
failure-time clock reading into the text, so two failures at different
times produce different message contents — the body is not the same for
every failure. -/
theorem error_content_varies :
    ¬ dashboardErrorContent "2024-01-01T00:00:00.000Z"
        = dashboardErrorContent "2024-01-01T00:00:01.000Z" := by
  decide

/-- C7 amended: every send failure appends exactly one assistant message
flagged isError whose timestamp is the local clock at failure time; the
Dashboard body is the fixed remediation script (connectivity check, retry,
rephrase, start a new conversation, escalate to support) with the
failure-time timestamp interpolated into the text, so its content agrees
across failures only up to that embedded timestamp, while the ChatWidget
body is a fixed generic error notice. -/
theorem failure_appends_single_error (st : DashboardState) (cst : ChatState)
    (text now fnow : String) (h : ¬ jsTrim text = "") :
    (handleSendMessage st text now (.failure fnow)).messages
      = st.messages ++ [mkUserMessage text now,
          { role := "assistant", content := dashboardErrorContent fnow,
            timestamp := fnow, isError := true }]
    ∧ (chatHandleSendMessage cst text now (.failure fnow)).messages
      = cst.messages ++ [mkUserMessage text now,
          { role := "assistant", content := chatErrorContent,
            timestamp := fnow, isError := true }] := by
  constructor
  · simp [handleSendMessage, h, sendFinish, sendStart, terminalMessage,
      mkDashboardErrorMessage]
  · simp [chatHandleSendMessage, h, chatTerminalMessage, mkChatErrorMessage]

/-- Closed witness for the amended failure behavior at a concrete send. -/
theorem failure_appends_single_error_witness :
    (handleSendMessage initialDashboardState "Hello" "t0"
        (.failure "t1")).messages
      = [mkUserMessage "Hello" "t0", mkDashboardErrorMessage "t1"] :=
  (failure_appends_single_error initialDashboardState initialChatState
    "Hello" "t0" "t1" (by decide)).1

/-- C8: a mode change appends exactly one system-role annotation, leaves
the session token and all prior messages unchanged, and the request body of
any subsequent send reads the mode and module current at send time, so the
next sent request carries the newly selected mode. -/
theorem mode_change_effects (st : ChatState) (newMode now text : String) :
    (handleModeChange st newMode now).messages
      = st.messages ++ [modeChangeMessage newMode now]
    ∧ (modeChangeMessage newMode now).role = "system"
    ∧ (handleModeChange st newMode now).sessionId = st.sessionId
    ∧ (handleModeChange st newMode now).messages.take st.messages.length
        = st.messages
    ∧ (handleModeChange st newMode now).messages.length
        = st.messages.length + 1
    ∧ chatRequestBody (handleModeChange st newMode now) text
        = { message := text, session_id := st.sessionId, mode := newMode,
            module := st.selectedModule } := by
  refine ⟨rfl, rfl, rfl, ?_, by simp [handleModeChange], rfl⟩
  simp only [handleModeChange, List.take_left]

/-- C9 counterexample: the ChatWidget new-session action does not leave the
timeline empty — after the reset the message list holds the freshly
appended welcome message. -/
theorem chat_reset_keeps_welcome :
    ¬ (chatHandleNewConversation initialChatState ⟨[]⟩
        "f3a2c1d0" "t9").1.messages = [] := by
  decide

/-- C9 amended: session reset unconditionally stores a fresh session token
in state and overwrites the persisted token under the fixed storage key in
both components; the Dashboard reset clears the timeline to empty and
re-shows the guided tour from its initial choice screen, while the
ChatWidget reset replaces the timeline with a single fresh welcome message
rather than leaving it empty. -/
theorem session_reset_behavior (st : DashboardState) (ls : LocalStorage)
    (cst : ChatState) (cls : LocalStorage) (fresh cfresh now : String) :
    (handleNewConversation st ls fresh).1.sessionId = some fresh
    ∧ (handleNewConversation st ls fresh).1.messages = []
    ∧ (handleNewConversation st ls fresh).1.showGuidedTour = true
    ∧ (handleNewConversation st ls fresh).2.getItem "docbot_session_id"
        = some fresh
    ∧ (chatHandleNewConversation cst cls cfresh now).1.sessionId
        = some cfresh
    ∧ (chatHandleNewConversation cst cls cfresh now).1.messages
        = [welcomeMessage now]
    ∧ (chatHandleNewConversation cst cls cfresh now).1.showWelcome = true
    ∧ (chatHandleNewConversation cst cls cfresh now).2.getItem
        "docbot_session_id" = some cfresh := by
  refine ⟨rfl, rfl, rfl, ?_, rfl, rfl, rfl, ?_⟩ <;>
    simp [handleNewConversation, chatHandleNewConversation,
      LocalStorage.setItem, LocalStorage.getItem, List.find?]

/-- C10: the Dashboard history load leaves the whole state (timeline and
tour visibility included) unchanged on a failed fetch, on a null payload,
and on an empty message list; it replaces the timeline and hides the tour
exactly when the fetched list is non-empty. -/
theorem history_load_guard (st : DashboardState) :
    loadHistory st .failure = st
    ∧ loadHistory st (.success none) = st
    ∧ loadHistory st (.success (some [])) = st
    ∧ (∀ msgs : List HistoryMessage, ¬ msgs = [] →
        loadHistory st (.success (some msgs))
          = { st with messages := msgs.map formatHistoryMessage,
                      showGuidedTour := false }) := by
  refine ⟨rfl, rfl, rfl, ?_⟩
  intro msgs h
  have hlen : 0 < msgs.length := List.length_pos.mpr h
  simp [loadHistory, hlen]

/-- Closed witness for the history-load guard at a concrete one-message
history. -/
theorem history_load_guard_witness :
    loadHistory initialDashboardState
        (.success (some [⟨"user", "Hi", "t0", none, none⟩]))
      = { initialDashboardState with
          messages := [formatHistoryMessage ⟨"user", "Hi", "t0", none, none⟩],
          showGuidedTour := false } :=
  (history_load_guard initialDashboardState).2.2.2
    [⟨"user", "Hi", "t0", none, none⟩] (by decide)
